import Mathlib

/-
Shallow embedding of the InversifyJS container orchestration layer
(src/container/container_base.ts, src/container/container.ts) together
with the parts of the binding registry, constraint system and planner
interface the container depends on.  Components whose source is not part
of this snapshot (Lookup, the constraint predicates, the planner entry
point, the error-message and metadata constants) are modelled from the
specification, as marked in their doc comments.
-/

set_option autoImplicit false

namespace Inversify

/-- A tag key or tag value attached to a resolution target.  In the source
these are `string | number | symbol`; the claims only need structural
equality, so they are modelled as strings. -/
abbrev Tag := String

/-- Modelled from the spec: service identifiers are strings, symbols, or
class/constructor references; strings and symbols compare structurally,
constructors by identity.  A class is modelled as its name together with a
numeric identity, so two distinct classes with the same name stay
distinguishable. -/
inductive SId where
  | strId (s : String)
  | symId (s : String)
  | clsId (name : String) (uid : Nat)
deriving DecidableEq, Repr

/-- Modelled from the spec: `getServiceIdentifierAsString`
(src/utils/serialization.ts is not in the snapshot).  The container test
suite pins its behaviour: a string identifier is itself, a symbol prints as
`Symbol(name)`, a class prints as its name. -/
def getServiceIdentifierAsString : SId → String
  | .strId s => s
  | .symId s => "Symbol(" ++ s ++ ")"
  | .clsId name _ => name

/-- Modelled from the spec: the canonical named tag
(METADATA_KEY.NAMED_TAG from src/constants/metadata_keys.ts, not in the
snapshot). -/
def NAMED_TAG : Tag := "named"

/-- Modelled from the spec: a binding's constraint is a predicate over a
request; the default constraint is always eligible, `whenTargetTagged`
restricts to a request carrying the given tag key/value, and
`whenTargetNamed name` is `whenTargetTagged NAMED_TAG name`. -/
inductive Constraint where
  | always
  | taggedC (k v : Tag)
deriving DecidableEq, Repr

/-- Whether a constraint accepts a request whose target carries the given
optional tag (the mock request built by `createMockRequest` carries exactly
the queried key/value pair; a plain `get` request carries none). -/
def Constraint.accepts : Constraint → Option (Tag × Tag) → Bool
  | .always, _ => true
  | .taggedC k v, some (rk, rv) => k == rk && v == rv
  | .taggedC _ _, none => false

/-- Scope of a binding (src/constants/literal_types.ts, modelled from the
spec: one of Transient, Singleton, Request). -/
inductive BindingScope where
  | Transient
  | Singleton
  | Request
deriving DecidableEq, Repr

/-- A registered binding.  Of the source's fields the claims observe the
service identifier, the scope, the constraint, the owning module id
(`undefined` when not registered through a module, modelled as `none`) and
the produced value; the production-strategy union is collapsed to a
constant payload (`toConstantValue`), which is the only strategy the
container-level claims exercise.  The per-binding numeric identity is not
modelled: values are immutable here, so a deep clone is the value itself. -/
structure Binding where
  serviceIdentifier : SId
  scope : BindingScope
  value : Nat
  constraint : Constraint
  moduleId : Option Nat
deriving DecidableEq, Repr

/-- Modelled from the spec: the binding registry
(src/container/lookup.ts is not in the snapshot): an ordered multi-map
from service identifier to a nonempty insertion-ordered list of bindings,
new keys appended last, and no key mapping to an empty list. -/
structure Lookup where
  entries : List (SId × List Binding)
deriving DecidableEq, Repr

/-- The empty registry. -/
def Lookup.empty : Lookup := ⟨[]⟩

/-- `hasKey` — whether any binding is registered under the key. -/
def Lookup.hasKey (l : Lookup) (k : SId) : Bool :=
  l.entries.any (fun e => e.1 == k)

/-- The list of bindings registered under a key, `[]` when absent.  In the
source `get` throws NOT_FOUND on an absent key; callers in the container
either guard with `hasKey` or catch, so the total version is used with the
error path handled at each call site. -/
def Lookup.getList (l : Lookup) (k : SId) : List Binding :=
  match l.entries.find? (fun e => e.1 == k) with
  | some e => e.2
  | none => []

/-- `add key binding`: append to the existing entry, or append a fresh
entry at the end when the key is new (JavaScript `Map` insertion order). -/
def Lookup.add (l : Lookup) (k : SId) (b : Binding) : Lookup :=
  if l.hasKey k then
    ⟨l.entries.map (fun e => if e.1 == k then (e.1, e.2 ++ [b]) else e)⟩
  else
    ⟨l.entries ++ [(k, [b])]⟩

/-- `remove key`: delete the whole entry; `none` models the NOT_FOUND
exception on an absent key. -/
def Lookup.remove (l : Lookup) (k : SId) : Option Lookup :=
  if l.hasKey k then
    some ⟨l.entries.filter (fun e => !(e.1 == k))⟩
  else
    none

/-- `removeByCondition`: delete every binding matching the predicate across
all keys, pruning entries left empty. -/
def Lookup.removeByCondition (l : Lookup) (p : Binding → Bool) : Lookup :=
  ⟨(l.entries.map (fun e => (e.1, e.2.filter (fun b => !(p b))))).filter
    (fun e => !e.2.isEmpty)⟩

/-- `clone` deep-copies the registry so later mutation of one copy never
affects the other.  Registries are immutable values here, so the deep copy
is the value itself; the fresh numeric identities the source gives cloned
bindings are outside the model (see `Binding`). -/
def Lookup.clone (l : Lookup) : Lookup := l

/-- The list of keys in insertion order. -/
def Lookup.keys (l : Lookup) : List SId := l.entries.map Prod.fst

/-! ## Container construction options (ContainerBase.constructor) -/

/-- The validated options record stored on the container. -/
structure ContainerOptions where
  defaultScope : BindingScope
  autoBindInjectable : Bool
  skipBaseClassChecks : Bool
deriving DecidableEq, Repr

/-- The options every container gets when construction supplies nothing:
Transient scope, no auto-binding, base-class checks on. -/
def defaultContainerOptions : ContainerOptions :=
  ⟨.Transient, false, false⟩

/-- A primitive JavaScript value passed where an options object is
expected; captures the non-object runtime values the constructor's
`typeof` guard can see. -/
inductive JsPrim where
  | nullV
  | boolV (b : Bool)
  | numV (n : Int)
  | strV (s : String)
  | funcV
deriving DecidableEq, Repr

/-- JavaScript truthiness of a primitive, as used by `containerOptions || {}`. -/
def JsPrim.truthy : JsPrim → Bool
  | .nullV => false
  | .boolV b => b
  | .numV n => n != 0
  | .strV s => s != ""
  | .funcV => true

/-- A runtime value found in one of the option object's fields.  The scope
enum values are the strings of BindingScopeEnum; `fOther` stands for any
value that is neither `undefined`, a boolean, a string nor a number. -/
inductive JsField where
  | undef
  | fBool (b : Bool)
  | fStr (s : String)
  | fNum (n : Int)
  | fOther
deriving DecidableEq, Repr

/-- The raw (unvalidated) option object: three optional fields whose
runtime values are arbitrary. -/
structure RawOptions where
  defaultScope : JsField
  autoBindInjectable : JsField
  skipBaseClassChecks : JsField
deriving DecidableEq, Repr

/-- The constructor argument: omitted (`undefined`), a primitive
non-object value, or an object. -/
inductive RawCtorArg where
  | undef
  | prim (p : JsPrim)
  | obj (o : RawOptions)
deriving DecidableEq, Repr

/-- The typed configuration errors of the constructor (the error-message
constants live in src/constants/error_msgs.ts, outside the snapshot). -/
inductive OptionsError where
  | mustBeObject
  | invalidDefaultScope
  | invalidAutoBindInjectable
  | invalidSkipBaseClassChecks
deriving DecidableEq, Repr

/-- Modelled from the spec: BindingScopeEnum's runtime values are the
strings naming the three scopes (src/constants/literal_types.ts is not in
the snapshot). -/
def scopeOfString (s : String) : Option BindingScope :=
  if s == "Singleton" then some .Singleton
  else if s == "Transient" then some .Transient
  else if s == "Request" then some .Request
  else none

/-- Validation of one `defaultScope` field value, following the
constructor: `undefined` defaults to Transient, otherwise the value must be
strictly equal to one of the three enum strings. -/
def validateDefaultScope : JsField → Except OptionsError BindingScope
  | .undef => .ok .Transient
  | .fStr s =>
    match scopeOfString s with
    | some sc => .ok sc
    | none => .error .invalidDefaultScope
  | _ => .error .invalidDefaultScope

/-- Validation of a boolean option field: `undefined` defaults to `false`,
a boolean passes through, anything else is rejected with the given error. -/
def validateBoolField (e : OptionsError) : JsField → Except OptionsError Bool
  | .undef => .ok false
  | .fBool b => .ok b
  | _ => .error e

/-- The field-validation part of the constructor, in source order:
defaultScope, then autoBindInjectable, then skipBaseClassChecks; the first
invalid field's error is thrown. -/
def validateFields (o : RawOptions) : Except OptionsError ContainerOptions :=
  match validateDefaultScope o.defaultScope with
  | .error e => .error e
  | .ok sc =>
    match validateBoolField .invalidAutoBindInjectable o.autoBindInjectable with
    | .error e => .error e
    | .ok auto =>
      match validateBoolField .invalidSkipBaseClassChecks
          o.skipBaseClassChecks with
      | .error e => .error e
      | .ok skip => .ok ⟨sc, auto, skip⟩

/-- The option-processing prefix of `ContainerBase.constructor`
(src/src/container/container_base.ts lines 24-60): `containerOptions || {}`
replaces a falsy argument with the empty object; a remaining non-object
fails the `typeof options !== "object"` guard; then the three fields are
validated in source order. -/
def initContainerOptions (arg : RawCtorArg) :
    Except OptionsError ContainerOptions :=
  match arg with
  | .undef => validateFields ⟨.undef, .undef, .undef⟩
  | .prim p =>
    if p.truthy then .error .mustBeObject
    else validateFields ⟨.undef, .undef, .undef⟩
  | .obj o => validateFields o

/-! ## Errors, resolution results, middleware -/

/-- Modelled from the spec: the error-message constants of
src/constants/error_msgs.ts (not in the snapshot).  Their exact wording is
immaterial to the claims; what matters is which constant an operation
raises and that `unbind` appends the stringified identifier. -/
def CANNOT_UNBIND : String := "Could not unbind serviceIdentifier:"

/-- Modelled from the spec: NOT_REGISTERED error-message prefix. -/
def NOT_REGISTERED : String := "No matching bindings found for serviceIdentifier:"

/-- Modelled from the spec: AMBIGUOUS_MATCH error-message prefix. -/
def AMBIGUOUS_MATCH : String :=
  "Ambiguous match found for serviceIdentifier:"

/-- The runtime errors the container operations can throw. -/
inductive DIError where
  | cannotUnbind (msg : String)
  | noMoreSnapshots
  | notRegistered (msg : String)
  | ambiguousMatch (msg : String)
  | invalidMiddlewareReturn
deriving DecidableEq, Repr

/-- A resolution result: one value for the single-result lookups, a list
for the multi-injection family.  (Values are the constant payloads of
bindings, see `Binding`.) -/
inductive Res where
  | one (v : Nat)
  | many (vs : List Nat)
deriving DecidableEq, Repr

/-- The argument record every `get`-family call builds and hands to the
middleware chain or to plan-and-resolve (`interfaces.NextArgs`).  The
`contextInterceptor` (set to the identity by `_get`) and the `targetType`
tag are not observed by any claim and are omitted. -/
structure NextArgs where
  avoidConstraints : Bool
  isMultiInject : Bool
  serviceIdentifier : SId
  key : Option Tag
  value : Option Tag

/-- A resolution entry point (`interfaces.Next`).  Raising is an `error`
result; `ok none` models a middleware returning `null`/`undefined`. -/
def Next : Type := NextArgs → Except DIError (Option Res)

/-- A middleware wraps the previous entry point (`interfaces.Middleware`). -/
def Middleware : Type := Next → Next

/-- A snapshot: the cloned binding dictionary plus the current middleware
reference (src/container/container_snapshot.ts, modelled from the spec). -/
structure ContainerSnapshot where
  bindings : Lookup
  middleware : Option Next

/-! ## The container -/

/-- The container state: binding dictionary, installed middleware,
snapshot stack (head = most recent), parent reference and validated
options.  `Container.mk` is recursive through the optional parent, so it
is an inductive rather than a structure. -/
inductive Container where
  | mk (bindings : Lookup) (middleware : Option Next)
       (snapshots : List ContainerSnapshot)
       (parent : Option Container) (options : ContainerOptions)

/-- The local binding dictionary. -/
def Container.bindings : Container → Lookup
  | .mk b _ _ _ _ => b

/-- The installed middleware chain, if any. -/
def Container.middleware : Container → Option Next
  | .mk _ m _ _ _ => m

/-- The snapshot stack, most recent first. -/
def Container.snapshots : Container → List ContainerSnapshot
  | .mk _ _ s _ _ => s

/-- The parent container, if any. -/
def Container.parent : Container → Option Container
  | .mk _ _ _ p _ => p

/-- The container's validated construction options. -/
def Container.options : Container → ContainerOptions
  | .mk _ _ _ _ o => o

/-- Replace the binding dictionary, keeping everything else. -/
def Container.withBindings (c : Container) (b : Lookup) : Container :=
  match c with
  | .mk _ m s p o => .mk b m s p o

/-- Replace the middleware reference, keeping everything else. -/
def Container.withMiddleware (c : Container) (m : Option Next) : Container :=
  match c with
  | .mk b _ s p o => .mk b m s p o

/-- Replace the snapshot stack, keeping everything else. -/
def Container.withSnapshots (c : Container) (s : List ContainerSnapshot) :
    Container :=
  match c with
  | .mk b m _ p o => .mk b m s p o

/-- A freshly constructed container with validated options and no parent:
empty dictionary, no middleware, empty snapshot stack. -/
def Container.new (o : ContainerOptions) : Container :=
  .mk Lookup.empty none [] none o

/-! ## Binding mutation operations

Fallible operations return the post-state together with an optional
error: JavaScript exceptions propagate to the caller but any mutation
already performed stays, so the post-state on failure is explicit. -/

/-- The fresh binding `Container.bind` creates before the fluent syntax
touches it: the identifier, the container's default scope, the default
always-eligible constraint, no module owner, and no produced value yet
(payload 0 stands for the absent cache). -/
def Container.newBinding (c : Container) (sid : SId) : Binding :=
  ⟨sid, c.options.defaultScope, 0, .always, none⟩

/-- `Container.bind`: create a fresh binding under the identifier and
append it to the dictionary (duplicates accumulate). -/
def Container.bind (c : Container) (sid : SId) : Container :=
  c.withBindings (c.bindings.add sid (c.newBinding sid))

/-- Binding with the fluent suffixes applied, e.g.
`bind(sid).toConstantValue(v).whenTargetTagged(k,t)`: the fluent syntax
mutates the binding just appended, so the composite is one dictionary
append of the configured binding. -/
def Container.bindConfigured (c : Container) (sid : SId) (v : Nat)
    (cst : Constraint) : Container :=
  c.withBindings (c.bindings.add sid
    { c.newBinding sid with value := v, constraint := cst })

/-- `ContainerBase.unbind`: remove every binding under the key; an absent
key raises CannotUnbind carrying the stringified identifier, leaving the
dictionary untouched. -/
def Container.unbind (c : Container) (sid : SId) :
    Container × Option DIError :=
  match c.bindings.remove sid with
  | some l => (c.withBindings l, none)
  | none =>
    (c, some (.cannotUnbind
      (CANNOT_UNBIND ++ " " ++ getServiceIdentifierAsString sid)))

/-- `ContainerBase.unbindAll`: replace the dictionary with a fresh empty
one. -/
def Container.unbindAll (c : Container) : Container :=
  c.withBindings Lookup.empty

/-- `Container.rebind`: `unbind` then `bind`; when `unbind` throws, `bind`
never runs and the error propagates. -/
def Container.rebind (c : Container) (sid : SId) :
    Container × Option DIError :=
  match c.unbind sid with
  | (c1, none) => (c1.bind sid, none)
  | (c1, some e) => (c1, some e)

/-! ## Snapshot and restore -/

/-- `snapshot()`: push a clone of the dictionary plus the current
middleware reference onto the stack. -/
def Container.snapshot (c : Container) : Container :=
  c.withSnapshots (⟨c.bindings.clone, c.middleware⟩ :: c.snapshots)

/-- `restore()`: pop the most recent snapshot and install it; on an empty
stack the pop yields nothing, NoMoreSnapshotsAvailable is raised, and the
state is untouched. -/
def Container.restore (c : Container) : Container × Option DIError :=
  match c.snapshots with
  | [] => (c, some .noMoreSnapshots)
  | s :: rest =>
    (((c.withBindings s.bindings).withMiddleware s.middleware).withSnapshots
      rest, none)

/-! ## Module load and unload -/

/-- One call a container-module registration callback can make: it only
receives the bind/unbind/rebind/isBound helpers
(`_getContainerModuleHelpersFactory`), so its effects are sequences of
these.  `isBound` is pure and effect-free, hence not listed. -/
inductive ModuleOp where
  | mbind (sid : SId) (v : Nat) (cst : Constraint)
  | munbind (sid : SId)
  | mrebind (sid : SId) (v : Nat) (cst : Constraint)

/-- The module helper `bindFunction`: an ordinary `bind` whose created
binding is then stamped with the module id
(`setModuleId`, src container lines 157-167). -/
def Container.moduleBind (c : Container) (mId : Nat) (sid : SId) (v : Nat)
    (cst : Constraint) : Container :=
  c.withBindings
    (c.bindings.add sid
      { c.newBinding sid with
        value := v
        constraint := cst
        moduleId := some mId })

/-- The module helper `rebindFunction`: `rebind` with the fresh binding
stamped with the module id; totalized so a CannotUnbind failure leaves the
state unchanged. -/
def Container.moduleRebind (c : Container) (mId : Nat) (sid : SId) (v : Nat)
    (cst : Constraint) : Container :=
  match c.unbind sid with
  | (c1, none) => c1.moduleBind mId sid v cst
  | (_, some _) => c

/-- Apply one module-helper call; a failing `unbind` leaves the state
unchanged. -/
def Container.applyModuleOp (c : Container) (mId : Nat) :
    ModuleOp → Container
  | .mbind sid v cst => c.moduleBind mId sid v cst
  | .munbind sid => (c.unbind sid).1
  | .mrebind sid v cst => c.moduleRebind mId sid v cst

/-- `load` of one module: run its registration callback, every helper call
stamped with the module's id. -/
def Container.load (c : Container) (mId : Nat) (ops : List ModuleOp) :
    Container :=
  ops.foldl (fun acc op => acc.applyModuleOp mId op) c

/-- `ContainerBase.unload` of one module: remove, across the whole
dictionary, every binding whose moduleId matches. -/
def Container.unload (c : Container) (mId : Nat) : Container :=
  c.withBindings (c.bindings.removeByCondition (fun b => b.moduleId == some mId))

/-! ## Planning and resolution entry point -/

/-- Modelled from the spec: the planner's container-selection walk
(§4.4 step 1; src/planning/planner.ts is not in the snapshot): the nearest
container in the parent chain owning at least one binding for the
identifier supplies all candidate bindings; parent bindings are invisible
once a closer container registers the identifier. -/
def Container.effectiveBindings : Container → SId → List Binding
  | .mk b _ _ p _, sid =>
    if b.hasKey sid then b.getList sid
    else
      match p with
      | some pc => pc.effectiveBindings sid
      | none => []

/-- The tag the synthetic target of a request carries, from the optional
key/value of the `get`-family call. -/
def requestTag (key value : Option Tag) : Option (Tag × Tag) :=
  match key, value with
  | some k, some v => some (k, v)
  | _, _ => none

/-- Modelled from the spec: the plan-then-resolve pipeline the container
wires together (`Container._planAndResolve`; planner and resolver sources
are not in the snapshot).  Candidate bindings come from the nearest owning
container; constraints filter them against the requested tag unless
`avoidConstraints`; zero eligible bindings raise NotRegistered (also for
multi-injection), several eligible bindings raise AmbiguousMatch for a
single-result lookup; multi-injection returns every eligible payload in
insertion order. -/
def Container.planAndResolve (c : Container) (args : NextArgs) :
    Except DIError Res :=
  let all := c.effectiveBindings args.serviceIdentifier
  let eligible :=
    if args.avoidConstraints then all
    else all.filter (fun b => b.constraint.accepts
      (requestTag args.key args.value))
  match eligible with
  | [] => .error (.notRegistered
      (NOT_REGISTERED ++ " " ++
        getServiceIdentifierAsString args.serviceIdentifier))
  | [b] =>
    if args.isMultiInject then .ok (.many [b.value]) else .ok (.one b.value)
  | bs =>
    if args.isMultiInject then .ok (.many (bs.map (·.value)))
    else .error (.ambiguousMatch
      (AMBIGUOUS_MATCH ++ " " ++
        getServiceIdentifierAsString args.serviceIdentifier))

/-- `_planAndResolve` as a middleware-shaped entry point: it never returns
`null`/`undefined` — it produces a value or throws. -/
def Container.planAndResolveNext (c : Container) : Next :=
  fun args => (c.planAndResolve args).map some

/-- The initial entry point `applyMiddleware` wraps: the already-installed
chain when present, the plan-and-resolve pipeline otherwise. -/
def Container.initialNext (c : Container) : Next :=
  match c.middleware with
  | some m => m
  | none => c.planAndResolveNext

/-- `Container.applyMiddleware`: left-fold the supplied middlewares over
the initial entry point (`middlewares.reduce((prev, curr) => curr(prev),
initial)`) and install the result. -/
def Container.applyMiddleware (c : Container) (ms : List Middleware) :
    Container :=
  c.withMiddleware (some (ms.foldl (fun prev curr => curr prev) c.initialNext))

/-- Private `Container._get`: build the argument record; with middleware
installed, run it and reject a `null`/`undefined` result with
InvalidMiddlewareReturn; without middleware, run plan-and-resolve
directly (no null check on that branch). -/
def Container.getInternal (c : Container) (avoidConstraints isMultiInject :
    Bool) (sid : SId) (key value : Option Tag) : Except DIError Res :=
  let args : NextArgs := ⟨avoidConstraints, isMultiInject, sid, key, value⟩
  match c.middleware with
  | some mw =>
    match mw args with
    | .error e => .error e
    | .ok none => .error .invalidMiddlewareReturn
    | .ok (some r) => .ok r
  | none => c.planAndResolve args

/-- `Container.get`. -/
def Container.get (c : Container) (sid : SId) : Except DIError Res :=
  c.getInternal false false sid none none

/-- `Container.getTagged`. -/
def Container.getTagged (c : Container) (sid : SId) (k v : Tag) :
    Except DIError Res :=
  c.getInternal false false sid (some k) (some v)

/-- `Container.getNamed`: delegates to `getTagged` with the canonical
named tag. -/
def Container.getNamed (c : Container) (sid : SId) (n : Tag) :
    Except DIError Res :=
  c.getTagged sid NAMED_TAG n

/-- `Container.getAll` (note: it sets `avoidConstraints`). -/
def Container.getAll (c : Container) (sid : SId) : Except DIError Res :=
  c.getInternal true true sid none none

/-- `Container.getAllTagged` (multi-inject, constraints applied). -/
def Container.getAllTagged (c : Container) (sid : SId) (k v : Tag) :
    Except DIError Res :=
  c.getInternal false true sid (some k) (some v)

/-- `Container.getAllNamed`: delegates to `getAllTagged` with the
canonical named tag. -/
def Container.getAllNamed (c : Container) (sid : SId) (n : Tag) :
    Except DIError Res :=
  c.getAllTagged sid NAMED_TAG n

/-! ## Hierarchical bound checks -/

/-- `Container.isBound`: the local dictionary first, then the parent when
the local check failed. -/
def Container.isBound : Container → SId → Bool
  | .mk b _ _ p _, sid =>
    b.hasKey sid ||
      (match p with
       | some pc => pc.isBound sid
       | none => false)

/-- The local part of `ContainerBase.isBoundTagged`: when the key is
present, whether some of its bindings' constraints accept the mock request
carrying the queried tag. -/
def Lookup.anyAccepts (l : Lookup) (sid : SId) (k v : Tag) : Bool :=
  if l.hasKey sid then
    (l.getList sid).any (fun b => b.constraint.accepts (some (k, v)))
  else false

/-- `Container.isBoundTagged`: the local dictionary first
(`ContainerBase.isBoundTagged`), then the parent when not already
satisfied. -/
def Container.isBoundTagged : Container → SId → Tag → Tag → Bool
  | .mk b _ _ p _, sid, k, v =>
    b.anyAccepts sid k v ||
      (match p with
       | some pc => pc.isBoundTagged sid k v
       | none => false)

/-- `Container.isBoundNamed`: `isBoundTagged` at the canonical named tag. -/
def Container.isBoundNamed (c : Container) (sid : SId) (n : Tag) : Bool :=
  c.isBoundTagged sid NAMED_TAG n

/-- The container chain: the container itself followed by its ancestors,
nearest first. -/
def Container.chain : Container → List Container
  | .mk b m s p o =>
    .mk b m s p o ::
      (match p with
       | some pc => pc.chain
       | none => [])

/-! ## Mutation sequences (for the snapshot/restore round trip) -/

/-- One container mutation from the snapshot/restore claim's list: `bind`
(bare or with fluent configuration), `unbind`, `unbindAll`, `load`,
`unload`, `applyMiddleware`.  A failing `unbind` raises before mutating,
so its totalized effect keeps the state. -/
inductive Mutation where
  | mutBind (sid : SId)
  | mutBindConfigured (sid : SId) (v : Nat) (cst : Constraint)
  | mutUnbind (sid : SId)
  | mutUnbindAll
  | mutLoad (mId : Nat) (ops : List ModuleOp)
  | mutUnload (mId : Nat)
  | mutApplyMiddleware (ms : List Middleware)

/-- Apply one mutation to the container. -/
def Container.applyMutation (c : Container) : Mutation → Container
  | .mutBind sid => c.bind sid
  | .mutBindConfigured sid v cst => c.bindConfigured sid v cst
  | .mutUnbind sid => (c.unbind sid).1
  | .mutUnbindAll => c.unbindAll
  | .mutLoad mId ops => c.load mId ops
  | .mutUnload mId => c.unload mId
  | .mutApplyMiddleware ms => c.applyMiddleware ms

/-- Apply a sequence of mutations in order. -/
def Container.applyMutations (c : Container) (ms : List Mutation) :
    Container :=
  ms.foldl (fun acc m => acc.applyMutation m) c

/-! ## Spec-shaped middleware chain (for the applyMiddleware claim) -/

/-- The middleware chain as the spec words it: each supplied middleware
wraps the previously composed entry point as its `next` argument, so with
the supplied list reversed the head is the outermost interceptor:
`composeRight [mn, ..., m1] i = mn (m(n-1) (... (m1 i)))`. -/
def composeRight : List Middleware → Next → Next
  | [], i => i
  | m :: rest, i => m (composeRight rest i)

/-! ## Small accessor lemmas -/

@[simp]
theorem Container.bindings_withBindings (c : Container) (b : Lookup) :
    (c.withBindings b).bindings = b := by
  cases c; rfl

@[simp]
theorem Container.middleware_withBindings (c : Container) (b : Lookup) :
    (c.withBindings b).middleware = c.middleware := by
  cases c; rfl

@[simp]
theorem Container.snapshots_withBindings (c : Container) (b : Lookup) :
    (c.withBindings b).snapshots = c.snapshots := by
  cases c; rfl

@[simp]
theorem Container.options_withBindings (c : Container) (b : Lookup) :
    (c.withBindings b).options = c.options := by
  cases c; rfl

@[simp]
theorem Container.parent_withBindings (c : Container) (b : Lookup) :
    (c.withBindings b).parent = c.parent := by
  cases c; rfl

@[simp]
theorem Container.bindings_withMiddleware (c : Container) (m : Option Next) :
    (c.withMiddleware m).bindings = c.bindings := by
  cases c; rfl

@[simp]
theorem Container.middleware_withMiddleware (c : Container)
    (m : Option Next) : (c.withMiddleware m).middleware = m := by
  cases c; rfl

@[simp]
theorem Container.snapshots_withMiddleware (c : Container) (m : Option Next) :
    (c.withMiddleware m).snapshots = c.snapshots := by
  cases c; rfl

@[simp]
theorem Container.options_withMiddleware (c : Container) (m : Option Next) :
    (c.withMiddleware m).options = c.options := by
  cases c; rfl

@[simp]
theorem Container.bindings_withSnapshots (c : Container)
    (s : List ContainerSnapshot) : (c.withSnapshots s).bindings = c.bindings := by
  cases c; rfl

@[simp]
theorem Container.middleware_withSnapshots (c : Container)
    (s : List ContainerSnapshot) :
    (c.withSnapshots s).middleware = c.middleware := by
  cases c; rfl

@[simp]
theorem Container.snapshots_withSnapshots (c : Container)
    (s : List ContainerSnapshot) : (c.withSnapshots s).snapshots = s := by
  cases c; rfl

@[simp]
theorem Container.options_withSnapshots (c : Container)
    (s : List ContainerSnapshot) : (c.withSnapshots s).options = c.options := by
  cases c; rfl

/-! ## List-level registry lemmas -/

theorem find?_filter_of_imp {α : Type} (p q : α → Bool)
    (h : ∀ x, p x = true → q x = true) :
    ∀ l : List α, (l.filter q).find? p = l.find? p
  | [] => rfl
  | x :: rest => by
    have ih := find?_filter_of_imp p q h rest
    by_cases hq : q x = true
    · rw [List.filter_cons_of_pos hq]
      by_cases hp : p x = true
      · simp [List.find?_cons, hp]
      · simp only [List.find?_cons]
        simp only [Bool.eq_false_iff.mpr hp]
        exact ih
    · rw [List.filter_cons_of_neg hq]
      have hp : p x = false := by
        rw [Bool.eq_false_iff]
        exact fun hpx => hq (h x hpx)
      rw [ih, List.find?_cons, hp]

theorem find?_map_entry (k : SId) (b : Binding) :
    ∀ es : List (SId × List Binding),
      (es.map (fun e => if e.1 == k then (e.1, e.2 ++ [b]) else e)).find?
          (fun e => e.1 == k) =
        (es.find? (fun e => e.1 == k)).map (fun e => (e.1, e.2 ++ [b]))
  | [] => rfl
  | e :: rest => by
    by_cases hk : e.1 = k
    · simp [List.find?_cons, hk, -List.find?_map]
    · have ih := find?_map_entry k b rest
      simp [List.find?_cons, hk, -List.find?_map] at ih ⊢
      exact ih

theorem find?_map_entry_other (k k' : SId) (b : Binding) (hne : k' ≠ k) :
    ∀ es : List (SId × List Binding),
      (es.map (fun e => if e.1 == k then (e.1, e.2 ++ [b]) else e)).find?
          (fun e => e.1 == k') =
        es.find? (fun e => e.1 == k')
  | [] => rfl
  | e :: rest => by
    have ih := find?_map_entry_other k k' b hne rest
    have hne' : ¬k = k' := fun hkk => hne hkk.symm
    by_cases hk : e.1 = k
    · simp [List.find?_cons, hk, hne, hne', -List.find?_map] at ih ⊢
      exact ih
    · by_cases hk' : e.1 = k'
      · simp [List.find?_cons, hk, hk', hne, hne', -List.find?_map]
      · simp [List.find?_cons, hk, hk', -List.find?_map] at ih ⊢
        exact ih

/-- When a key is absent, so is its `find?` entry. -/
theorem Lookup.find?_eq_none_of_not_hasKey (l : Lookup) (k : SId)
    (h : l.hasKey k = false) :
    l.entries.find? (fun e => e.1 == k) = none := by
  unfold Lookup.hasKey at h
  rw [List.find?_eq_none]
  intro x hx hpx
  have hany : l.entries.any (fun e => e.1 == k) = true :=
    List.any_eq_true.mpr ⟨x, hx, hpx⟩
  rw [h] at hany
  exact Bool.false_ne_true hany

/-- When a key is present, its `find?` entry exists. -/
theorem Lookup.find?_isSome_of_hasKey (l : Lookup) (k : SId)
    (h : l.hasKey k = true) :
    (l.entries.find? (fun e => e.1 == k)).isSome = true := by
  unfold Lookup.hasKey at h
  exact List.find?_isSome.mpr (List.any_eq_true.mp h)

/-- `add` appends the new binding at the end of its key's list. -/
theorem Lookup.getList_add_self (l : Lookup) (k : SId) (b : Binding) :
    (l.add k b).getList k = l.getList k ++ [b] := by
  by_cases h : l.hasKey k = true
  · unfold Lookup.add
    rw [if_pos h]
    simp only [Lookup.getList]
    rw [find?_map_entry]
    cases hf : l.entries.find? (fun e => e.1 == k) with
    | none =>
      exfalso
      have hs := l.find?_isSome_of_hasKey k h
      rw [hf] at hs
      simp at hs
    | some e0 => simp
  · unfold Lookup.add
    rw [if_neg h]
    simp only [Lookup.getList]
    rw [List.find?_append, Lookup.find?_eq_none_of_not_hasKey l k
      (Bool.eq_false_iff.mpr h)]
    simp [List.find?_cons]

/-- `add` under one key leaves every other key's list unchanged. -/
theorem Lookup.getList_add_other (l : Lookup) (k k' : SId) (b : Binding)
    (hne : k' ≠ k) : (l.add k b).getList k' = l.getList k' := by
  by_cases h : l.hasKey k = true
  · unfold Lookup.add
    rw [if_pos h]
    simp only [Lookup.getList]
    rw [find?_map_entry_other k k' b hne]
  · unfold Lookup.add
    rw [if_neg h]
    simp only [Lookup.getList]
    rw [List.find?_append]
    have hkk' : ¬k = k' := fun hkk => hne hkk.symm
    cases hf : l.entries.find? (fun e => e.1 == k') with
    | none => simp [List.find?_cons, hkk']
    | some e0 => simp

/-- After `remove`, the key is gone. -/
theorem Lookup.hasKey_remove_self (l l' : Lookup) (k : SId)
    (h : l.remove k = some l') : l'.hasKey k = false := by
  unfold Lookup.remove at h
  by_cases hk : l.hasKey k = true
  · rw [if_pos hk] at h
    cases h
    unfold Lookup.hasKey
    rw [Bool.eq_false_iff]
    intro hany
    obtain ⟨x, hx, hpx⟩ := List.any_eq_true.mp hany
    have hmem := List.mem_filter.mp hx
    rw [hpx] at hmem
    simp at hmem
  · rw [if_neg hk] at h
    cases h

/-- `remove` of one key leaves every other key's list unchanged. -/
theorem Lookup.getList_remove_other (l l' : Lookup) (k k' : SId)
    (hne : k' ≠ k) (h : l.remove k = some l') :
    l'.getList k' = l.getList k' := by
  unfold Lookup.remove at h
  by_cases hk : l.hasKey k = true
  · rw [if_pos hk] at h
    cases h
    have himp : ∀ x : SId × List Binding,
        (x.1 == k') = true → (!(x.1 == k)) = true := by
      intro x hpx
      rw [beq_iff_eq] at hpx
      simp [hpx, hne]
    simp only [Lookup.getList]
    rw [find?_filter_of_imp _ _ himp]
  · rw [if_neg hk] at h
    cases h

/-! ## removeByCondition lemmas -/

theorem find?_rbc_none (p : Binding → Bool) (sid : SId)
    (es : List (SId × List Binding)) (hsid : sid ∉ es.map Prod.fst) :
    ((es.map (fun e => (e.1, e.2.filter (fun b => !(p b))))).filter
        (fun e => !e.2.isEmpty)).find? (fun e => e.1 == sid) = none := by
  rw [List.find?_eq_none]
  intro x hx hpx
  have hx1 : x ∈ es.map (fun e => (e.1, e.2.filter (fun b => !(p b)))) :=
    (List.mem_filter.mp hx).1
  obtain ⟨y, hy, hfy⟩ := List.mem_map.mp hx1
  rw [beq_iff_eq] at hpx
  apply hsid
  rw [List.mem_map]
  refine ⟨y, hy, ?_⟩
  have : x.1 = y.1 := by rw [← hfy]
  rw [← this, hpx]

theorem find?_rbc (p : Binding → Bool) (sid : SId) :
    ∀ es : List (SId × List Binding), (es.map Prod.fst).Nodup →
      ((es.map (fun e => (e.1, e.2.filter (fun b => !(p b))))).filter
          (fun e => !e.2.isEmpty)).find? (fun e => e.1 == sid) =
        match es.find? (fun e => e.1 == sid) with
        | some e =>
          if (e.2.filter (fun b => !(p b))).isEmpty then none
          else some (e.1, e.2.filter (fun b => !(p b)))
        | none => none
  | [], _ => rfl
  | e :: rest, hnd => by
    have hnotin : e.1 ∉ rest.map Prod.fst := (List.nodup_cons.mp hnd).1
    have hrest : (rest.map Prod.fst).Nodup := (List.nodup_cons.mp hnd).2
    have ih := find?_rbc p sid rest hrest
    by_cases hk : e.1 = sid
    · subst hk
      by_cases hempty : (e.2.filter (fun b => !(p b))).isEmpty = true
      · rw [List.map_cons, List.filter_cons_of_neg (by simp [hempty]),
          find?_rbc_none p e.1 rest hnotin]
        simp [List.find?_cons, hempty]
      · rw [List.map_cons,
          List.filter_cons_of_pos (by simp [Bool.eq_false_iff.mpr hempty])]
        simp [List.find?_cons, hempty]
    · rw [List.map_cons]
      by_cases hempty : (e.2.filter (fun b => !(p b))).isEmpty = true
      · rw [List.filter_cons_of_neg (by simp [hempty]), ih]
        simp [List.find?_cons, hk]
      · rw [List.filter_cons_of_pos (by simp [Bool.eq_false_iff.mpr hempty])]
        simp [List.find?_cons, hk] at ih ⊢
        exact ih

/-- `removeByCondition` filters every key's binding list, per key. -/
theorem Lookup.getList_removeByCondition (l : Lookup) (p : Binding → Bool)
    (sid : SId) (h : l.keys.Nodup) :
    (l.removeByCondition p).getList sid =
      (l.getList sid).filter (fun b => !(p b)) := by
  unfold Lookup.removeByCondition
  simp only [Lookup.getList]
  rw [find?_rbc p sid l.entries h]
  cases hf : l.entries.find? (fun e => e.1 == sid) with
  | none => rfl
  | some e0 =>
    by_cases hempty : (e0.2.filter (fun b => !(p b))).isEmpty = true
    · have he := List.isEmpty_iff.mp hempty
      simp [hempty, he]
    · simp [hempty]

/-- `removeByCondition` keeps the key order: the surviving keys form a
sublist of the original keys. -/
theorem Lookup.keys_removeByCondition_sublist (l : Lookup)
    (p : Binding → Bool) : (l.removeByCondition p).keys.Sublist l.keys := by
  unfold Lookup.removeByCondition Lookup.keys
  have h1 : ((l.entries.map
      (fun e => (e.1, e.2.filter (fun b => !(p b))))).filter
        (fun e => !e.2.isEmpty)).Sublist
      (l.entries.map (fun e => (e.1, e.2.filter (fun b => !(p b))))) :=
    List.filter_sublist _
  have h2 := h1.map Prod.fst
  rw [List.map_map] at h2
  exact h2

/-! ## Mutations leave the snapshot stack alone -/

@[simp]
theorem Container.snapshots_bind (c : Container) (sid : SId) :
    (c.bind sid).snapshots = c.snapshots := by
  unfold Container.bind
  simp

@[simp]
theorem Container.snapshots_bindConfigured (c : Container) (sid : SId)
    (v : Nat) (cst : Constraint) :
    (c.bindConfigured sid v cst).snapshots = c.snapshots := by
  unfold Container.bindConfigured
  simp

@[simp]
theorem Container.snapshots_unbind (c : Container) (sid : SId) :
    (c.unbind sid).1.snapshots = c.snapshots := by
  unfold Container.unbind
  cases c.bindings.remove sid <;> simp

@[simp]
theorem Container.snapshots_moduleBind (c : Container) (mId : Nat)
    (sid : SId) (v : Nat) (cst : Constraint) :
    (c.moduleBind mId sid v cst).snapshots = c.snapshots := by
  unfold Container.moduleBind
  simp

theorem Container.snapshots_applyModuleOp (c : Container) (mId : Nat)
    (op : ModuleOp) : (c.applyModuleOp mId op).snapshots = c.snapshots := by
  cases op with
  | mbind sid v cst => simp [Container.applyModuleOp]
  | munbind sid => simp [Container.applyModuleOp]
  | mrebind sid v cst =>
    simp only [Container.applyModuleOp, Container.moduleRebind]
    cases h : c.unbind sid with
    | mk c1 e =>
      have hs := c.snapshots_unbind sid
      rw [h] at hs
      cases e with
      | none => simp at hs; simp [hs]
      | some err => rfl

theorem Container.snapshots_load (c : Container) (mId : Nat)
    (ops : List ModuleOp) : (c.load mId ops).snapshots = c.snapshots := by
  unfold Container.load
  induction ops generalizing c with
  | nil => rfl
  | cons op rest ih =>
    rw [List.foldl_cons, ih]
    exact c.snapshots_applyModuleOp mId op

theorem Container.snapshots_applyMutation (c : Container) (m : Mutation) :
    (c.applyMutation m).snapshots = c.snapshots := by
  cases m with
  | mutBind sid => simp [Container.applyMutation]
  | mutBindConfigured sid v cst => simp [Container.applyMutation]
  | mutUnbind sid => simp [Container.applyMutation]
  | mutUnbindAll => simp [Container.applyMutation, Container.unbindAll]
  | mutLoad mId ops =>
    unfold Container.applyMutation
    exact c.snapshots_load mId ops
  | mutUnload mId => simp [Container.applyMutation, Container.unload]
  | mutApplyMiddleware ms =>
    simp [Container.applyMutation, Container.applyMiddleware]

theorem Container.snapshots_applyMutations (c : Container)
    (ms : List Mutation) : (c.applyMutations ms).snapshots = c.snapshots := by
  unfold Container.applyMutations
  induction ms generalizing c with
  | nil => rfl
  | cons m rest ih =>
    rw [List.foldl_cons, ih]
    exact c.snapshots_applyMutation m

/-! ## unbind helper lemmas -/

/-- An absent key is empty. -/
theorem Lookup.getList_eq_nil_of_not_hasKey (l : Lookup) (k : SId)
    (h : l.hasKey k = false) : l.getList k = [] := by
  unfold Lookup.getList
  rw [l.find?_eq_none_of_not_hasKey k h]

theorem Container.unbind_absent (c : Container) (sid : SId)
    (h : c.bindings.hasKey sid = false) :
    c.unbind sid =
      (c, some (.cannotUnbind
        (CANNOT_UNBIND ++ " " ++ getServiceIdentifierAsString sid))) := by
  unfold Container.unbind Lookup.remove
  rw [h]
  simp

theorem Container.unbind_present (c : Container) (sid : SId)
    (h : c.bindings.hasKey sid = true) :
    c.unbind sid =
      (c.withBindings
        ⟨c.bindings.entries.filter (fun e => !(e.1 == sid))⟩, none) := by
  unfold Container.unbind Lookup.remove
  rw [h]
  simp

/-- The `remove` equation under a present key, for reuse of the Lookup
lemmas. -/
theorem Lookup.remove_eq_of_hasKey (l : Lookup) (k : SId)
    (h : l.hasKey k = true) :
    l.remove k = some ⟨l.entries.filter (fun e => !(e.1 == k))⟩ := by
  unfold Lookup.remove
  rw [h]
  simp

/-! ## Options validation helper lemmas -/

/-- A field value for `defaultScope` the constructor rejects: present and
not one of the three enum strings. -/
def invalidScopeField : JsField → Bool
  | .undef => false
  | .fStr s => (scopeOfString s).isNone
  | _ => true

/-- A field value for a boolean option the constructor rejects: present
and not a boolean. -/
def nonBoolField : JsField → Bool
  | .undef => false
  | .fBool _ => false
  | _ => true

theorem validateDefaultScope_err (f : JsField)
    (h : invalidScopeField f = true) :
    validateDefaultScope f = .error .invalidDefaultScope := by
  cases f with
  | undef => simp [invalidScopeField] at h
  | fStr s =>
    simp only [invalidScopeField, Option.isNone_iff_eq_none] at h
    simp [validateDefaultScope, h]
  | fBool b => rfl
  | fNum n => rfl
  | fOther => rfl

theorem validateDefaultScope_ok (f : JsField)
    (h : invalidScopeField f = false) :
    ∃ sc, validateDefaultScope f = .ok sc := by
  cases f with
  | undef => exact ⟨.Transient, rfl⟩
  | fStr s =>
    simp only [invalidScopeField] at h
    cases hs : scopeOfString s with
    | none => rw [hs] at h; simp at h
    | some sc =>
      refine ⟨sc, ?_⟩
      simp [validateDefaultScope, hs]
  | fBool b => simp [invalidScopeField] at h
  | fNum n => simp [invalidScopeField] at h
  | fOther => simp [invalidScopeField] at h

theorem validateBoolField_err (e : OptionsError) (f : JsField)
    (h : nonBoolField f = true) : validateBoolField e f = .error e := by
  cases f with
  | undef => simp [nonBoolField] at h
  | fBool b => simp [nonBoolField] at h
  | fStr s => rfl
  | fNum n => rfl
  | fOther => rfl

theorem validateBoolField_ok (e : OptionsError) (f : JsField)
    (h : nonBoolField f = false) : ∃ b, validateBoolField e f = .ok b := by
  cases f with
  | undef => exact ⟨false, rfl⟩
  | fBool b => exact ⟨b, rfl⟩
  | fStr s => simp [nonBoolField] at h
  | fNum n => simp [nonBoolField] at h
  | fOther => simp [nonBoolField] at h

/-! ## Middleware dispatch helper lemmas -/

theorem Container.getInternal_mw_none (c : Container) (mw : Next)
    (h : c.middleware = some mw) (a b : Bool) (sid : SId)
    (k v : Option Tag) (hm : mw ⟨a, b, sid, k, v⟩ = .ok none) :
    c.getInternal a b sid k v = .error .invalidMiddlewareReturn := by
  simp [Container.getInternal, h, hm]

theorem Container.getInternal_mw_some (c : Container) (mw : Next)
    (h : c.middleware = some mw) (a b : Bool) (sid : SId)
    (k v : Option Tag) (r : Res) (hm : mw ⟨a, b, sid, k, v⟩ = .ok (some r)) :
    c.getInternal a b sid k v = .ok r := by
  simp [Container.getInternal, h, hm]

/-! ## Middleware chain composition lemmas -/

theorem composeRight_append (ms : List Middleware) (m : Middleware)
    (i : Next) : composeRight (ms ++ [m]) i = composeRight ms (m i) := by
  induction ms with
  | nil => rfl
  | cons m1 rest ih =>
    show m1 (composeRight (rest ++ [m]) i) = m1 (composeRight rest (m i))
    rw [ih]

theorem foldl_eq_composeRight (ms : List Middleware) (i : Next) :
    ms.foldl (fun prev curr => curr prev) i = composeRight ms.reverse i := by
  induction ms generalizing i with
  | nil => rfl
  | cons m rest ih =>
    rw [List.foldl_cons, List.reverse_cons, composeRight_append]
    exact ih (m i)

/-! ## Hierarchy flattening lemmas -/

theorem Container.isBound_eq_chain : ∀ (c : Container) (sid : SId),
    c.isBound sid = c.chain.any (fun a => a.bindings.hasKey sid)
  | .mk b m s none o, sid => by
    simp [Container.isBound, Container.chain, Container.bindings]
  | .mk b m s (some pc) o, sid => by
    have ih := Container.isBound_eq_chain pc sid
    simp [Container.isBound, Container.chain, Container.bindings, ih]

theorem Container.isBoundTagged_eq_chain :
    ∀ (c : Container) (sid : SId) (k v : Tag),
      c.isBoundTagged sid k v =
        c.chain.any (fun a => a.bindings.anyAccepts sid k v)
  | .mk b m s none o, sid, k, v => by
    simp [Container.isBoundTagged, Container.chain, Container.bindings]
  | .mk b m s (some pc) o, sid, k, v => by
    have ih := Container.isBoundTagged_eq_chain pc sid k v
    simp [Container.isBoundTagged, Container.chain, Container.bindings, ih]

/-! ## Claim theorems -/

/-- C1 (counterexample): `rebind` is NOT tolerant of an absent identifier:
on a fresh container with nothing bound, `rebind("Ninja")` raises
(CannotUnbind), contradicting the claim that it does not fail. -/
theorem C1_counterexample :
    ((Container.new defaultContainerOptions).rebind (SId.strId "Ninja")).2 ≠
      none := by
  decide

/-- C1 (amended): `rebind(id)` behaves as `unbind(id)` followed by
`bind(id)`, but it is NOT tolerant of an absent identifier: when `id` has
no bindings it fails with CannotUnbind and leaves the dictionary
untouched; when `id` is bound, it succeeds and afterwards `id` has exactly
the one newly created binding, all other identifiers untouched. -/
theorem C1_rebind (c : Container) (sid : SId) :
    (c.bindings.hasKey sid = false →
      c.rebind sid =
        (c, some (.cannotUnbind
          (CANNOT_UNBIND ++ " " ++ getServiceIdentifierAsString sid)))) ∧
    (c.bindings.hasKey sid = true →
      (c.rebind sid).2 = none ∧
      (c.rebind sid).1.bindings.getList sid = [c.newBinding sid] ∧
      ∀ sid' : SId, sid' ≠ sid →
        (c.rebind sid).1.bindings.getList sid' = c.bindings.getList sid') := by
  constructor
  · intro h
    unfold Container.rebind
    rw [c.unbind_absent sid h]
  · intro h
    have hrem := c.bindings.remove_eq_of_hasKey sid h
    have hu := c.unbind_present sid h
    have hre : c.rebind sid =
        ((c.withBindings
          ⟨c.bindings.entries.filter (fun e => !(e.1 == sid))⟩).bind sid,
         none) := by
      unfold Container.rebind
      rw [hu]
    set l' : Lookup := ⟨c.bindings.entries.filter (fun e => !(e.1 == sid))⟩
      with hl'
    have hkey : l'.hasKey sid = false :=
      Lookup.hasKey_remove_self c.bindings l' sid hrem
    refine ⟨by rw [hre], ?_, ?_⟩
    · rw [hre]
      show ((c.withBindings l').bind sid).bindings.getList sid = _
      unfold Container.bind
      simp only [Container.bindings_withBindings]
      have hnb : (c.withBindings l').newBinding sid = c.newBinding sid := by
        unfold Container.newBinding
        simp
      rw [hnb, Lookup.getList_add_self,
        l'.getList_eq_nil_of_not_hasKey sid hkey]
      rfl
    · intro sid' hne
      rw [hre]
      show ((c.withBindings l').bind sid).bindings.getList sid' = _
      unfold Container.bind
      simp only [Container.bindings_withBindings]
      rw [Lookup.getList_add_other _ _ _ _ hne]
      exact Lookup.getList_remove_other c.bindings l' sid sid' hne hrem

/-- C1 (witness): a container with "Ninja" bound twice; rebinding leaves
exactly the one fresh binding. -/
theorem C1_witness :
    ((((Container.new defaultContainerOptions).bind
        (SId.strId "Ninja")).bind (SId.strId "Ninja")).bindings.hasKey
          (SId.strId "Ninja") = true) ∧
    (((((Container.new defaultContainerOptions).bind
        (SId.strId "Ninja")).bind (SId.strId "Ninja")).rebind
          (SId.strId "Ninja")).1.bindings.getList (SId.strId "Ninja") =
      [(((Container.new defaultContainerOptions).bind
        (SId.strId "Ninja")).bind (SId.strId "Ninja")).newBinding
          (SId.strId "Ninja")]) :=
  ⟨by decide,
   ((C1_rebind (((Container.new defaultContainerOptions).bind
      (SId.strId "Ninja")).bind (SId.strId "Ninja"))
      (SId.strId "Ninja")).2 (by decide)).2.1⟩

/-- C3: `restore()` when the snapshot stack is empty fails with
NoMoreSnapshotsAvailable and leaves the container (binding dictionary and
middleware included) unchanged. -/
theorem C3_restore_empty (c : Container) (h : c.snapshots = []) :
    c.restore = (c, some .noMoreSnapshots) := by
  unfold Container.restore
  rw [h]

/-- C3 (witness): a fresh container has no snapshots and its `restore`
fails with NoMoreSnapshotsAvailable without changing it. -/
theorem C3_witness :
    (Container.new defaultContainerOptions).snapshots = [] ∧
    (Container.new defaultContainerOptions).restore =
      (Container.new defaultContainerOptions, some .noMoreSnapshots) :=
  ⟨rfl, C3_restore_empty (Container.new defaultContainerOptions) rfl⟩

/-- C4: `unbind(id)` on an identifier with no bindings fails with
CannotUnbind, whose message embeds the stringified identifier, and mutates
nothing; on a registered identifier it removes all of its bindings without
error and leaves every other identifier's bindings unchanged. -/
theorem C4_unbind (c : Container) (sid : SId) :
    (c.bindings.hasKey sid = false →
      c.unbind sid =
        (c, some (.cannotUnbind
          (CANNOT_UNBIND ++ " " ++ getServiceIdentifierAsString sid)))) ∧
    (c.bindings.hasKey sid = true →
      (c.unbind sid).2 = none ∧
      (c.unbind sid).1.bindings.hasKey sid = false ∧
      ∀ sid' : SId, sid' ≠ sid →
        (c.unbind sid).1.bindings.getList sid' = c.bindings.getList sid') := by
  constructor
  · exact c.unbind_absent sid
  · intro h
    have hrem := c.bindings.remove_eq_of_hasKey sid h
    have hu := c.unbind_present sid h
    refine ⟨by rw [hu], ?_, ?_⟩
    · rw [hu]
      simp only [Container.bindings_withBindings]
      exact Lookup.hasKey_remove_self c.bindings _ sid hrem
    · intro sid' hne
      rw [hu]
      simp only [Container.bindings_withBindings]
      exact Lookup.getList_remove_other c.bindings _ sid sid' hne hrem

/-- C4 (witness): on a container binding only "Ninja", unbinding the
absent "Katana" fails with the message embedding "Katana", and unbinding
"Ninja" succeeds. -/
theorem C4_witness :
    (((Container.new defaultContainerOptions).bind
        (SId.strId "Ninja")).unbind (SId.strId "Katana") =
      ((Container.new defaultContainerOptions).bind (SId.strId "Ninja"),
        some (.cannotUnbind
          (CANNOT_UNBIND ++ " " ++
            getServiceIdentifierAsString (SId.strId "Katana"))))) ∧
    ((((Container.new defaultContainerOptions).bind
        (SId.strId "Ninja")).unbind (SId.strId "Ninja")).2 = none) :=
  ⟨(C4_unbind ((Container.new defaultContainerOptions).bind
      (SId.strId "Ninja")) (SId.strId "Katana")).1 (by decide),
   ((C4_unbind ((Container.new defaultContainerOptions).bind
      (SId.strId "Ninja")) (SId.strId "Ninja")).2 (by decide)).1⟩

/-- C2: `snapshot()`, then any sequence of mutations (bind — bare or
configured — unbind, unbindAll, load, unload, applyMiddleware), then
`restore()` succeeds and brings the binding dictionary contents and the
middleware reference back exactly to their values at the moment of the
snapshot. -/
theorem C2_snapshot_restore (c : Container) (ms : List Mutation) :
    ((c.snapshot.applyMutations ms).restore).2 = none ∧
    ((c.snapshot.applyMutations ms).restore).1.bindings = c.bindings ∧
    ((c.snapshot.applyMutations ms).restore).1.middleware = c.middleware := by
  have hs : (c.snapshot.applyMutations ms).snapshots =
      ⟨c.bindings.clone, c.middleware⟩ :: c.snapshots := by
    rw [Container.snapshots_applyMutations]
    unfold Container.snapshot
    simp
  unfold Container.restore
  rw [hs]
  simp [Lookup.clone]

/-- C5: `unload(m)` removes, across every service identifier, exactly the
bindings whose moduleId is m's id, keeps the surviving bindings and keys
in order, and the module helpers' `bind` is what stamps a created binding
with the module id (appending it to its identifier's list). -/
theorem C5_unload (c : Container) (mId : Nat)
    (h : c.bindings.keys.Nodup) :
    (∀ sid : SId, (c.unload mId).bindings.getList sid =
      (c.bindings.getList sid).filter (fun b => !(b.moduleId == some mId))) ∧
    (c.unload mId).bindings.keys.Sublist c.bindings.keys ∧
    (∀ (sid : SId) (v : Nat) (cst : Constraint),
      (c.moduleBind mId sid v cst).bindings.getList sid =
        c.bindings.getList sid ++
          [{ c.newBinding sid with
             value := v
             constraint := cst
             moduleId := some mId }]) := by
  refine ⟨?_, ?_, ?_⟩
  · intro sid
    unfold Container.unload
    simp only [Container.bindings_withBindings]
    exact c.bindings.getList_removeByCondition _ sid h
  · unfold Container.unload
    simp only [Container.bindings_withBindings]
    exact c.bindings.keys_removeByCondition_sublist _
  · intro sid v cst
    unfold Container.moduleBind
    simp only [Container.bindings_withBindings]
    exact c.bindings.getList_add_self sid _

/-- C5 (witness): two single-binding modules loaded through the module
helpers; unloading module 1 empties "Ninja" and keeps "Katana" intact. -/
theorem C5_witness :
    ((((Container.new defaultContainerOptions).moduleBind 1
        (SId.strId "Ninja") 10 .always).moduleBind 2
        (SId.strId "Katana") 20 .always).bindings.keys.Nodup) ∧
    (((((Container.new defaultContainerOptions).moduleBind 1
        (SId.strId "Ninja") 10 .always).moduleBind 2
        (SId.strId "Katana") 20 .always).unload 1).bindings.getList
          (SId.strId "Ninja") =
      (((((Container.new defaultContainerOptions).moduleBind 1
        (SId.strId "Ninja") 10 .always).moduleBind 2
        (SId.strId "Katana") 20 .always)).bindings.getList
          (SId.strId "Ninja")).filter (fun b => !(b.moduleId == some 1))) :=
  ⟨by decide,
   (C5_unload (((Container.new defaultContainerOptions).moduleBind 1
      (SId.strId "Ninja") 10 .always).moduleBind 2
      (SId.strId "Katana") 20 .always) 1 (by decide)).1 (SId.strId "Ninja")⟩

/-- C6: `isBound` is true exactly when some container along the chain
(local dictionary first, then the ancestors) has the key, and
`isBoundTagged` is true exactly when some container along the chain has a
local binding whose constraint accepts the mock request carrying the
queried tag. -/
theorem C6_hierarchical_isBound (c : Container) (sid : SId) (k v : Tag) :
    (c.isBound sid = c.chain.any (fun a => a.bindings.hasKey sid)) ∧
    (c.isBoundTagged sid k v =
      c.chain.any (fun a => a.bindings.anyAccepts sid k v)) :=
  ⟨c.isBound_eq_chain sid, c.isBoundTagged_eq_chain sid k v⟩

/-- C7 (counterexample): the number 0 is not an object, yet constructing a
container with it succeeds with the default options (because
`containerOptions || {}` replaces every falsy argument with the empty
object), contradicting the claim that any non-object options value fails
construction. -/
theorem C7_counterexample :
    initContainerOptions (.prim (.numV 0)) = .ok defaultContainerOptions :=
  rfl

/-- C7 (amended): a TRUTHY non-object options value fails construction
with the object-guard error, while a falsy one is treated as omitted;
a present defaultScope outside the three enum strings fails with the
invalid-defaultScope error; a present non-boolean autoBindInjectable or
skipBaseClassChecks fails with its respective error (fields checked in
that order); omitted options or fields yield defaultScope = Transient,
autoBindInjectable = false, skipBaseClassChecks = false. -/
theorem C7_options :
    (∀ p : JsPrim, p.truthy = true →
      initContainerOptions (.prim p) = .error .mustBeObject) ∧
    (∀ p : JsPrim, p.truthy = false →
      initContainerOptions (.prim p) = .ok defaultContainerOptions) ∧
    (initContainerOptions .undef = .ok defaultContainerOptions) ∧
    (∀ o : RawOptions, invalidScopeField o.defaultScope = true →
      initContainerOptions (.obj o) = .error .invalidDefaultScope) ∧
    (∀ o : RawOptions, invalidScopeField o.defaultScope = false →
      nonBoolField o.autoBindInjectable = true →
      initContainerOptions (.obj o) = .error .invalidAutoBindInjectable) ∧
    (∀ o : RawOptions, invalidScopeField o.defaultScope = false →
      nonBoolField o.autoBindInjectable = false →
      nonBoolField o.skipBaseClassChecks = true →
      initContainerOptions (.obj o) = .error .invalidSkipBaseClassChecks) ∧
    (initContainerOptions (.obj ⟨.undef, .undef, .undef⟩) =
      .ok defaultContainerOptions) := by
  refine ⟨?_, ?_, rfl, ?_, ?_, ?_, rfl⟩
  · intro p hp
    simp [initContainerOptions, hp]
  · intro p hp
    simp [initContainerOptions, hp]
    rfl
  · intro o hsc
    simp only [initContainerOptions, validateFields]
    rw [validateDefaultScope_err o.defaultScope hsc]
  · intro o hsc hauto
    obtain ⟨sc, hok⟩ := validateDefaultScope_ok o.defaultScope hsc
    simp only [initContainerOptions, validateFields]
    rw [hok, validateBoolField_err .invalidAutoBindInjectable
      o.autoBindInjectable hauto]
  · intro o hsc hauto hskip
    obtain ⟨sc, hok⟩ := validateDefaultScope_ok o.defaultScope hsc
    obtain ⟨b1, hok1⟩ := validateBoolField_ok .invalidAutoBindInjectable
      o.autoBindInjectable hauto
    simp only [initContainerOptions, validateFields]
    rw [hok, hok1, validateBoolField_err .invalidSkipBaseClassChecks
      o.skipBaseClassChecks hskip]

/-- C7 (witness): concrete invalid options (mirroring the repo's test)
each fail with their typed error; valid falsy input succeeds. -/
theorem C7_witness :
    JsPrim.funcV.truthy = true ∧
    initContainerOptions (.prim .funcV) = .error .mustBeObject ∧
    initContainerOptions (.obj ⟨.fStr "wrongValue", .undef, .undef⟩) =
      .error .invalidDefaultScope ∧
    initContainerOptions (.obj ⟨.undef, .fStr "wrongValue", .undef⟩) =
      .error .invalidAutoBindInjectable ∧
    initContainerOptions (.obj ⟨.undef, .undef, .fNum 3⟩) =
      .error .invalidSkipBaseClassChecks :=
  ⟨rfl,
   C7_options.1 .funcV rfl,
   C7_options.2.2.2.1 ⟨.fStr "wrongValue", .undef, .undef⟩ (by decide),
   C7_options.2.2.2.2.1 ⟨.undef, .fStr "wrongValue", .undef⟩ rfl rfl,
   C7_options.2.2.2.2.2.1 ⟨.undef, .undef, .fNum 3⟩ rfl rfl rfl⟩

/-- C8: with middleware installed, every call of the get family whose
middleware chain returns null/undefined fails with InvalidMiddlewareReturn,
and any non-null middleware result is returned to the caller unchanged;
instantiated for each of get, getTagged, getNamed, getAll, getAllTagged
and getAllNamed with the argument record that call builds. -/
theorem C8_middleware_return (c : Container) (mw : Next)
    (h : c.middleware = some mw) (sid : SId) (k v n : Tag) :
    ((mw ⟨false, false, sid, none, none⟩ = .ok none →
        c.get sid = .error .invalidMiddlewareReturn) ∧
      ∀ r, mw ⟨false, false, sid, none, none⟩ = .ok (some r) →
        c.get sid = .ok r) ∧
    ((mw ⟨false, false, sid, some k, some v⟩ = .ok none →
        c.getTagged sid k v = .error .invalidMiddlewareReturn) ∧
      ∀ r, mw ⟨false, false, sid, some k, some v⟩ = .ok (some r) →
        c.getTagged sid k v = .ok r) ∧
    ((mw ⟨false, false, sid, some NAMED_TAG, some n⟩ = .ok none →
        c.getNamed sid n = .error .invalidMiddlewareReturn) ∧
      ∀ r, mw ⟨false, false, sid, some NAMED_TAG, some n⟩ = .ok (some r) →
        c.getNamed sid n = .ok r) ∧
    ((mw ⟨true, true, sid, none, none⟩ = .ok none →
        c.getAll sid = .error .invalidMiddlewareReturn) ∧
      ∀ r, mw ⟨true, true, sid, none, none⟩ = .ok (some r) →
        c.getAll sid = .ok r) ∧
    ((mw ⟨false, true, sid, some k, some v⟩ = .ok none →
        c.getAllTagged sid k v = .error .invalidMiddlewareReturn) ∧
      ∀ r, mw ⟨false, true, sid, some k, some v⟩ = .ok (some r) →
        c.getAllTagged sid k v = .ok r) ∧
    ((mw ⟨false, true, sid, some NAMED_TAG, some n⟩ = .ok none →
        c.getAllNamed sid n = .error .invalidMiddlewareReturn) ∧
      ∀ r, mw ⟨false, true, sid, some NAMED_TAG, some n⟩ = .ok (some r) →
        c.getAllNamed sid n = .ok r) :=
  ⟨⟨fun hm => c.getInternal_mw_none mw h _ _ _ _ _ hm,
    fun r hm => c.getInternal_mw_some mw h _ _ _ _ _ r hm⟩,
   ⟨fun hm => c.getInternal_mw_none mw h _ _ _ _ _ hm,
    fun r hm => c.getInternal_mw_some mw h _ _ _ _ _ r hm⟩,
   ⟨fun hm => c.getInternal_mw_none mw h _ _ _ _ _ hm,
    fun r hm => c.getInternal_mw_some mw h _ _ _ _ _ r hm⟩,
   ⟨fun hm => c.getInternal_mw_none mw h _ _ _ _ _ hm,
    fun r hm => c.getInternal_mw_some mw h _ _ _ _ _ r hm⟩,
   ⟨fun hm => c.getInternal_mw_none mw h _ _ _ _ _ hm,
    fun r hm => c.getInternal_mw_some mw h _ _ _ _ _ r hm⟩,
   ⟨fun hm => c.getInternal_mw_none mw h _ _ _ _ _ hm,
    fun r hm => c.getInternal_mw_some mw h _ _ _ _ _ r hm⟩⟩

/-- C8 (witness): a middleware that always returns null makes `get` fail
with InvalidMiddlewareReturn, and one that always returns the value 7
makes `get` return 7 unchanged. -/
theorem C8_witness :
    (Container.mk Lookup.empty (some (fun _ => .ok none)) [] none
        defaultContainerOptions).get (SId.strId "X") =
      .error .invalidMiddlewareReturn ∧
    (Container.mk Lookup.empty (some (fun _ => .ok (some (.one 7)))) [] none
        defaultContainerOptions).get (SId.strId "X") = .ok (.one 7) :=
  ⟨(C8_middleware_return
      (Container.mk Lookup.empty (some (fun _ => .ok none)) [] none
        defaultContainerOptions)
      (fun _ => .ok none) rfl (SId.strId "X") "k" "v" "n").1.1 rfl,
   (C8_middleware_return
      (Container.mk Lookup.empty (some (fun _ => .ok (some (.one 7)))) []
        none defaultContainerOptions)
      (fun _ => .ok (some (.one 7))) rfl
      (SId.strId "X") "k" "v" "n").1.2 (.one 7) rfl⟩

/-- C9: `applyMiddleware(m1, ..., mn)` installs the chain in which each
middleware receives the previously composed entry point as its "next"
argument — the innermost "next" being the already-installed chain when
present and the plan-and-resolve entry point otherwise, the last-supplied
middleware outermost — and afterwards every get-family request (routed via
the internal `_get`) flows through this chain instead of directly reaching
plan-and-resolve. -/
theorem C9_applyMiddleware (c : Container) (ms : List Middleware) :
    ((c.applyMiddleware ms).middleware =
      some (composeRight ms.reverse c.initialNext)) ∧
    (∀ (a b : Bool) (sid : SId) (k v : Option Tag),
      (c.applyMiddleware ms).getInternal a b sid k v =
        match composeRight ms.reverse c.initialNext ⟨a, b, sid, k, v⟩ with
        | .error e => .error e
        | .ok none => .error .invalidMiddlewareReturn
        | .ok (some r) => .ok r) := by
  have hmw : (c.applyMiddleware ms).middleware =
      some (composeRight ms.reverse c.initialNext) := by
    unfold Container.applyMiddleware
    simp only [Container.middleware_withMiddleware]
    rw [foldl_eq_composeRight]
  refine ⟨hmw, ?_⟩
  intro a b sid k v
  simp only [Container.getInternal, hmw]

/-- C10: the named operations are exactly the tagged operations
specialized to the canonical named tag: `getNamed`, `getAllNamed` and
`isBoundNamed` coincide with `getTagged`, `getAllTagged` and
`isBoundTagged` at NAMED_TAG. -/
theorem C10_named_eq_tagged (c : Container) (sid : SId) (n : Tag) :
    c.getNamed sid n = c.getTagged sid NAMED_TAG n ∧
    c.getAllNamed sid n = c.getAllTagged sid NAMED_TAG n ∧
    c.isBoundNamed sid n = c.isBoundTagged sid NAMED_TAG n :=
  ⟨rfl, rfl, rfl⟩

end Inversify
